import Mathlib

/-!
Verification of the SecuredCaptcha risk-scoring and challenge-lifecycle core.

This file gives a shallow embedding, in Lean 4, of the scoring and lifecycle
logic of the repository: the challenge verify handler and create handler
(src/routes/challenge.ts), the behavioral bot detector
(src/services/botDetection.ts), the IP reputation aggregator
(src/middleware/auth.ts companion file, class IPIntelligence), the abuse
detector (class AbuseDetector), the in-memory cache used in place of Redis
(config/database.ts), and the standalone variant risk scorer
(standalone-package/server.js).

JavaScript numbers are modeled as rationals; Math.round is floor of x + 1/2,
which matches the JavaScript semantics of rounding half toward positive
infinity.  Database rows become Lean structures, the persisted store becomes
explicit state passed through functions, and request handlers become pure
functions from the looked-up state and request data to an outcome plus the
updated state.
-/

/-- Rounding as performed by Math.round in JavaScript: half-up. -/
def jsRound (x : ℚ) : ℤ := ⌊x + 1/2⌋

/-! ## Challenge records and the verify handler (src/routes/challenge.ts) -/

/-- Challenge row as persisted by the create handler (prisma.challenge.create).
Fields not read by any handler under verification (ids, action, userAgent,
geo strings, createdAt) are omitted; expiresAt is a millisecond epoch time. -/
structure Challenge where
  token : String
  siteKey : String
  fingerprint : String
  verified : Bool
  score : ℤ
  riskLevel : String
  botScore : ℤ
  vpnDetected : Bool
  proxyDetected : Bool
  torDetected : Bool
  abuseScore : ℤ
  expiresAt : ℤ
deriving DecidableEq

/-- Outcome of the POST /verify handler, one constructor per return path. -/
inductive VerifyOutcome
  | notFound
  | alreadyVerified
  | expired
  | invalidApiConfig
  | success (score : ℤ) (riskLevel : String)
deriving DecidableEq

/-- HTTP status attached to each verify return path in the handler. -/
def verifyHttpStatus : VerifyOutcome → ℕ
  | .notFound => 404
  | .alreadyVerified => 400
  | .expired => 400
  | .invalidApiConfig => 401
  | .success _ _ => 200

/-- Error string attached to each failing verify return path. -/
def verifyErrorMessage : VerifyOutcome → Option String
  | .notFound => some "Challenge not found or expired"
  | .alreadyVerified => some "Challenge already verified"
  | .expired => some "Challenge expired"
  | .invalidApiConfig => some "Invalid API configuration"
  | .success _ _ => none

/-- The POST /verify handler of src/routes/challenge.ts, as a pure function.
Arguments: the challenge row found by token lookup (none when no row
matches), whether the apiKey lookup for the siteKey of the challenge
succeeds, the fingerprint field of the request body (none when absent), and
the current time in milliseconds.  Returns the response outcome and the
stored row after the call.  The fingerprint penalty branch tests the
JavaScript truthiness of the fingerprint, so an empty string counts as
absent, exactly as in the source. -/
def verifyChallenge (found : Option Challenge) (apiKeyOk : Bool)
    (fp : Option String) (now : ℤ) : VerifyOutcome × Option Challenge :=
  match found with
  | none => (.notFound, none)
  | some c =>
    if c.verified then (.alreadyVerified, some c)
    else if c.expiresAt < now then (.expired, some c)
    else
      let mismatch : Bool :=
        match fp with
        | some f => f ≠ "" && f ≠ c.fingerprint
        | none => false
      let updatedScore : ℤ := if mismatch then max 0 (c.score - 20) else c.score
      let updatedRisk : String := if mismatch then "HIGH" else c.riskLevel
      if apiKeyOk then
        (.success updatedScore updatedRisk,
         some { c with verified := true, score := updatedScore, riskLevel := updatedRisk })
      else (.invalidApiConfig, some c)

/-- Concrete freshly created challenge used to witness the single-use claim. -/
def singleUseW : Challenge :=
  { token := "tok-1", siteKey := "site-1", fingerprint := "fp-0",
    verified := false, score := 85, riskLevel := "LOW", botScore := 10,
    vpnDetected := false, proxyDetected := false, torDetected := false,
    abuseScore := 5, expiresAt := 300000 }

/-- C1: challenge verification is single-use.  For a created challenge (a row
with verified = false), the first verify call with its token before expiresAt
succeeds and stores verified = true, and every later verify call with the
same token, at any time, any supplied fingerprint and any apiKey state, fails
with status 400 and the message Challenge already verified, leaving the
stored row unchanged. -/
theorem challenge_single_use (c : Challenge) (fp1 : Option String) (now1 : ℤ)
    (hver : c.verified = false) (hexp : ¬ c.expiresAt < now1) :
    ∃ c₁ : Challenge,
      (verifyChallenge (some c) true fp1 now1).2 = some c₁ ∧
      (∃ s rl, (verifyChallenge (some c) true fp1 now1).1 = .success s rl) ∧
      c₁.verified = true ∧
      ∀ (ak : Bool) (fp2 : Option String) (now2 : ℤ),
        verifyChallenge (some c₁) ak fp2 now2 = (.alreadyVerified, some c₁) ∧
        verifyHttpStatus (verifyChallenge (some c₁) ak fp2 now2).1 = 400 ∧
        verifyErrorMessage (verifyChallenge (some c₁) ak fp2 now2).1 =
          some "Challenge already verified" := by
  simp only [verifyChallenge, hver, Bool.false_eq_true, if_false, if_neg hexp, if_true]
  refine ⟨_, rfl, ⟨_, _, rfl⟩, rfl, ?_⟩
  intro ak fp2 now2
  simp [verifyChallenge, verifyHttpStatus, verifyErrorMessage]

/-- Witness for C1: the single-use theorem instantiated at a concrete
challenge, first verified at time 0 with no fingerprint supplied. -/
theorem challenge_single_use_witness :
    ∃ c₁ : Challenge,
      (verifyChallenge (some singleUseW) true none 0).2 = some c₁ ∧
      (∃ s rl, (verifyChallenge (some singleUseW) true none 0).1 = .success s rl) ∧
      c₁.verified = true ∧
      ∀ (ak : Bool) (fp2 : Option String) (now2 : ℤ),
        verifyChallenge (some c₁) ak fp2 now2 = (.alreadyVerified, some c₁) ∧
        verifyHttpStatus (verifyChallenge (some c₁) ak fp2 now2).1 = 400 ∧
        verifyErrorMessage (verifyChallenge (some c₁) ak fp2 now2).1 =
          some "Challenge already verified" :=
  challenge_single_use singleUseW none 0 rfl (by decide)

/-- Concrete challenge that is both already verified and past its expiry. -/
def verifiedExpiredW : Challenge :=
  { token := "tok-2", siteKey := "site-1", fingerprint := "fp-0",
    verified := true, score := 80, riskLevel := "LOW", botScore := 10,
    vpnDetected := false, proxyDetected := false, torDetected := false,
    abuseScore := 5, expiresAt := 1000 }

/-- C2 counterexample: the handler checks verified before expiry, so a verify
call strictly after expiresAt on an already-verified challenge returns
AlreadyVerified, not Expired, refuting the claim that expiry always wins
regardless of prior verification. -/
theorem verify_after_expiry_counterexample :
    verifiedExpiredW.expiresAt < 2000 ∧
    (verifyChallenge (some verifiedExpiredW) true none 2000).1 =
      .alreadyVerified ∧
    (verifyChallenge (some verifiedExpiredW) true none 2000).1 ≠ .expired := by
  decide

/-- C2 amended: a verify call strictly after expiresAt always fails, with
Expired when the challenge is unverified and with AlreadyVerified when it was
already verified, since the verified check precedes the expiry check. -/
theorem verify_after_expiry (c : Challenge) (ak : Bool) (fp : Option String)
    (now : ℤ) (h : c.expiresAt < now) :
    (verifyChallenge (some c) ak fp now).1 =
      (if c.verified then .alreadyVerified else .expired) ∧
    ∀ s rl, (verifyChallenge (some c) ak fp now).1 ≠ .success s rl := by
  cases hv : c.verified <;> simp [verifyChallenge, hv, h]

/-- Concrete unverified expired challenge for the C2 witness. -/
def expiredUnverifiedW : Challenge :=
  { verifiedExpiredW with token := "tok-3", verified := false }

/-- Witness for C2 amended: at time 400000, far past expiry 1000, the
outcome on the unverified concrete challenge is the Expired failure. -/
theorem verify_after_expiry_witness :
    ((verifyChallenge (some expiredUnverifiedW) true none 400000).1 =
      (if expiredUnverifiedW.verified then VerifyOutcome.alreadyVerified
       else .expired) ∧
     ∀ s rl, (verifyChallenge (some expiredUnverifiedW) true none 400000).1 ≠
       .success s rl) ∧
    (if expiredUnverifiedW.verified then VerifyOutcome.alreadyVerified
     else .expired) = .expired :=
  ⟨verify_after_expiry expiredUnverifiedW true none 400000 (by decide), by decide⟩

/-- Concrete low-risk challenge with stored fingerprint abc and score 90. -/
def fpMismatchW : Challenge :=
  { token := "tok-4", siteKey := "site-1", fingerprint := "abc",
    verified := false, score := 90, riskLevel := "LOW", botScore := 4,
    vpnDetected := false, proxyDetected := false, torDetected := false,
    abuseScore := 2, expiresAt := 300000 }

/-- C3 counterexample: the penalty branch tests JavaScript truthiness, so a
supplied empty-string fingerprint, although different from the stored one,
is treated as absent: verification succeeds with the score unchanged at 90
instead of the claimed max(0, 90 - 20) = 70. -/
theorem fingerprint_mismatch_counterexample :
    ("" : String) ≠ fpMismatchW.fingerprint ∧
    (verifyChallenge (some fpMismatchW) true (some "") 0).1 =
      .success 90 "LOW" ∧
    max 0 (fpMismatchW.score - 20) = 70 ∧ (90 : ℤ) ≠ 70 := by
  decide

/-- C3 amended: for an unverified, unexpired challenge, a verify call that
supplies a nonempty fingerprint different from the stored one still succeeds,
and both the persisted and the returned score become max(0, score - 20) with
riskLevel forced to HIGH. -/
theorem verify_fingerprint_mismatch (c : Challenge) (f : String) (now : ℤ)
    (hver : c.verified = false) (hexp : ¬ c.expiresAt < now)
    (hne : f ≠ c.fingerprint) (hemp : f ≠ "") :
    verifyChallenge (some c) true (some f) now =
      (.success (max 0 (c.score - 20)) "HIGH",
       some { c with verified := true, score := max 0 (c.score - 20),
                     riskLevel := "HIGH" }) := by
  simp [verifyChallenge, hver, hexp, hne, hemp]

/-- Witness for C3 amended: on the concrete score-90 challenge, verifying
with the nonempty mismatched fingerprint zzz returns success with score
exactly 70 and riskLevel HIGH, and persists the same values. -/
theorem verify_fingerprint_mismatch_witness :
    verifyChallenge (some fpMismatchW) true (some "zzz") 0 =
      (.success 70 "HIGH",
       some { fpMismatchW with verified := true, score := 70,
                               riskLevel := "HIGH" }) := by
  have h := verify_fingerprint_mismatch fpMismatchW "zzz" 0 rfl (by decide)
    (by decide) (by decide)
  rw [h]
  decide

/-! ## Behavioral bot detector (src/services/botDetection.ts) -/

/-- ASCII lower-cased code point, the case folding relevant to the
all-ASCII signature patterns. -/
def lowerCode (c : Char) : ℕ :=
  if 65 ≤ c.toNat ∧ c.toNat ≤ 90 then c.toNat + 32 else c.toNat

/-- Character-level test whether the first list is an initial segment of the
second up to ASCII case; used to embed the substring semantics of the regex
patterns. -/
def startsWithChars : List Char → List Char → Bool
  | [], _ => true
  | _ :: _, [] => false
  | a :: as, b :: bs => (lowerCode a == lowerCode b) && startsWithChars as bs

/-- Character-level case-insensitive substring search. -/
def hasSubChars (needle : List Char) : List Char → Bool
  | [] => needle.isEmpty
  | c :: rest => startsWithChars needle (c :: rest) || hasSubChars needle rest

/-- Case-insensitive substring containment, the semantics of each bot
pattern regex of analyzeUserAgent (every pattern is a plain ASCII literal
tested with the i flag). -/
def containsCI (hay needle : String) : Bool :=
  hasSubChars needle.data hay.data

/-- The fixed automation-signature list of BotDetector.analyzeUserAgent. -/
def botPatternStrings : List String :=
  ["bot", "crawl", "spider", "scrape", "curl", "wget",
   "python", "java", "php", "ruby", "go-http",
   "headless", "phantom", "selenium", "puppeteer"]

/-- Result of parsing a user agent with the external UAParser library,
abstracted to the three fields the detector reads.  A version string that
does not parse to a number is modeled as none, since NaN comparisons are
false in JavaScript. -/
structure UAParsed where
  browserName : Option String
  osName : Option String
  browserVersion : Option ℚ
deriving DecidableEq

/-- Result of BotDetector.analyzeUserAgent restricted to the fields read by
the caller. -/
structure UAResult where
  isBot : Bool
  confidence : ℚ
deriving DecidableEq

/-- BotDetector.analyzeUserAgent: pattern match against the signature list,
then the incomplete-user-agent check, then the very-old-browser check, with
confidences combined by maximum. -/
def analyzeUserAgent (ua : String) (parsed : UAParsed) : UAResult :=
  let patMatch := botPatternStrings.any (fun p => containsCI ua p)
  let isBot1 := patMatch
  let conf1 : ℚ := if patMatch then 0.9 else 0
  let incomplete := parsed.browserName.isNone || parsed.osName.isNone
  let isBot2 := if incomplete then true else isBot1
  let conf2 : ℚ := if incomplete then max conf1 0.7 else conf1
  let conf3 : ℚ :=
    match parsed.browserVersion with
    | some v => if v < 50 then max conf2 0.6 else conf2
    | none => conf2
  { isBot := isBot2, confidence := conf3 }

/-- Mouse point as sent by the widget. -/
structure MousePoint where
  x : ℚ
  y : ℚ
  timestamp : ℚ
deriving DecidableEq

/-- Near-collinearity test of one consecutive triple: the absolute cross
product of the two displacement vectors is below 1. -/
def collinearTriple (p0 p1 p2 : MousePoint) : Bool :=
  decide (|(p1.x - p0.x) * (p2.y - p1.y) - (p1.y - p0.y) * (p2.x - p1.x)| < 1)

/-- Tail of the straightLines counter: the two preceding points are carried
explicitly so the recursion is structural on the remaining list. -/
def straightLineCountAux (p0 p1 : MousePoint) : List MousePoint → ℕ
  | [] => 0
  | p2 :: rest =>
      (if collinearTriple p0 p1 p2 then 1 else 0) + straightLineCountAux p1 p2 rest

/-- Number of near-collinear consecutive triples, the straightLines counter
of the mouse-movement loop. -/
def straightLineCount : List MousePoint → ℕ
  | p0 :: p1 :: rest => straightLineCountAux p0 p1 rest
  | _ => 0

/-- Mouse-movement contribution of analyzeBotBehavior.  Note that the
linearity threshold in the source compares the triple count against 0.7
times the number of points, not 0.7 times the number of triples. -/
def mouseMovementScore (mm : Option (List MousePoint)) : ℚ :=
  match mm with
  | none => 0
  | some ms =>
    if ms.length = 0 then 20
    else if ms.length < 5 then 15
    else if (straightLineCount ms : ℚ) > (ms.length : ℚ) * 0.7 then 10
    else 0

/-- Keystroke event as sent by the widget. -/
structure Keystroke where
  key : String
  timestamp : ℚ
deriving DecidableEq

/-- Tail of the interval computation with the previous element carried
explicitly, keeping the recursion structural. -/
def successiveDiffsAux (prev : ℚ) : List ℚ → List ℚ
  | [] => []
  | b :: rest => (b - prev) :: successiveDiffsAux b rest

/-- Differences of successive elements, the interval computation shared by
the keystroke and request-timing analyses. -/
def successiveDiffs : List ℚ → List ℚ
  | [] => []
  | a :: rest => successiveDiffsAux a rest

/-- Arithmetic mean used by the interval analyses. -/
def meanQ (l : List ℚ) : ℚ := l.sum / l.length

/-- Population variance used by the interval analyses. -/
def varianceQ (l : List ℚ) : ℚ :=
  (l.map (fun x => (x - meanQ l) ^ 2)).sum / l.length

/-- Keystroke contribution of analyzeBotBehavior. -/
def keystrokeScore (ks : Option (List Keystroke)) : ℚ :=
  match ks with
  | none => 0
  | some l =>
    if l.length = 0 then 10
    else
      let intervals := successiveDiffs (l.map Keystroke.timestamp)
      if intervals.length > 0 then
        (if varianceQ intervals < 100 then 15 else 0)
      else 0

/-- BotDetector.analyzeTimingPatterns as a Boolean.  The source computes the
standard deviation as the square root of the variance and tests it against
10; since the variance is a mean of squares, that test holds exactly when
the variance is below 100, which is how it is embedded here. -/
def analyzeTimingSuspicious (ts : List ℚ) : Bool :=
  if ts.length < 3 then false
  else
    let intervals := successiveDiffs ts
    if varianceQ intervals < 100 ∧ intervals.length > 5 then true
    else if meanQ intervals < 100 then true
    else false

/-- Request-timing contribution of analyzeBotBehavior, guarded by the
length-above-2 check of the caller. -/
def requestTimingScore (ts : Option (List ℚ)) : ℚ :=
  match ts with
  | none => 0
  | some l =>
    if l.length > 2 then (if analyzeTimingSuspicious l then 15 else 0) else 0

/-- Challenge-history contribution of analyzeBotBehavior. -/
def challengeHistoryScore (prev : Option ℕ) : ℚ :=
  match prev with
  | none => 0
  | some n => if n > 10 then 15 else if n > 5 then 8 else 0

/-- Geolocation-availability contribution of analyzeBotBehavior: 5 points
when the geoip lookup returns null. -/
def geoUnavailableScore (geoAvailable : Bool) : ℚ :=
  if geoAvailable then 0 else 5

/-- Four-level risk taxonomy shared by the bot detector and the IP
aggregator. -/
inductive RiskLevel
  | low
  | medium
  | high
  | critical
deriving DecidableEq

/-- Numeric order of the risk levels, for stating at-least comparisons. -/
def RiskLevel.toNat : RiskLevel → ℕ
  | .low => 0
  | .medium => 1
  | .high => 2
  | .critical => 3

/-- Uppercase rendering stored into the challenge row by the create
handler. -/
def RiskLevel.upper : RiskLevel → String
  | .low => "LOW"
  | .medium => "MEDIUM"
  | .high => "HIGH"
  | .critical => "CRITICAL"

/-- Shared risk thresholds: at least 75 critical, at least 50 high, at least
25 medium, otherwise low, applied to the unclamped score. -/
def riskLevelOfScore (s : ℚ) : RiskLevel :=
  if s ≥ 75 then .critical
  else if s ≥ 50 then .high
  else if s ≥ 25 then .medium
  else .low

/-- User-agent contribution of analyzeBotBehavior: 25 times the confidence
when the user agent is classified as a bot. -/
def uaScore (ua : String) (parsed : UAParsed) : ℚ :=
  let r := analyzeUserAgent ua parsed
  if r.isBot then 25 * r.confidence else 0

/-- Unclamped additive score of BotDetector.analyzeBotBehavior. -/
def rawBotScore (ua : String) (parsed : UAParsed)
    (mm : Option (List MousePoint)) (ks : Option (List Keystroke))
    (ts : Option (List ℚ)) (prev : Option ℕ) (geoAvailable : Bool) : ℚ :=
  uaScore ua parsed + mouseMovementScore mm + keystrokeScore ks +
    requestTimingScore ts + challengeHistoryScore prev +
    geoUnavailableScore geoAvailable

/-- Returned fields of BotDetector.analyzeBotBehavior read by the create
handler. -/
structure BotAnalysis where
  score : ℤ
  riskLevel : RiskLevel
deriving DecidableEq

/-- BotDetector.analyzeBotBehavior: the returned score is the rounded raw
score clamped to 100, while the risk level is computed from the raw score. -/
def analyzeBotBehavior (ua : String) (parsed : UAParsed)
    (mm : Option (List MousePoint)) (ks : Option (List Keystroke))
    (ts : Option (List ℚ)) (prev : Option ℕ) (geoAvailable : Bool) :
    BotAnalysis :=
  let raw := rawBotScore ua parsed mm ks ts prev geoAvailable
  { score := min 100 (jsRound raw), riskLevel := riskLevelOfScore raw }

/-! ## IP reputation aggregator (class IPIntelligence) -/

/-- Environment of one uncached analyzeIP computation: the classification
and provider signals the pipeline consumes.  A provider that is not
configured, fails or times out is modeled by its active flag being false,
matching the env-key guards and catch blocks of the source. -/
structure IPSignals where
  isVPN : Bool
  isProxy : Bool
  isTor : Bool
  isHosting : Bool
  ipqsActive : Bool
  ipqsProxy : Bool
  ipqsVpn : Bool
  ipqsTor : Bool
  ipqsFraudScore : ℤ
  ipinfoActive : Bool
  ipinfoVpn : Bool
  ipinfoProxy : Bool
  ipinfoHosting : Bool
  reputationFailed : Bool
deriving DecidableEq

/-- IPIntelligence.checkIPReputation: weighted signals of the two optional
external providers. -/
def reputationScore (s : IPSignals) : ℤ :=
  (if s.ipqsActive then
      (if s.ipqsProxy then 25 else 0) + (if s.ipqsVpn then 25 else 0) +
        (if s.ipqsTor then 30 else 0) +
        (if s.ipqsFraudScore > 75 then 20 else 0)
   else 0) +
  (if s.ipinfoActive then
      (if s.ipinfoVpn then 25 else 0) + (if s.ipinfoProxy then 25 else 0) +
        (if s.ipinfoHosting then 15 else 0)
   else 0)

/-- Unclamped additive abuseScore of IPIntelligence.analyzeIP; the outer
catch around the reputation stage zeroes its contribution on failure. -/
def rawAbuseScore (s : IPSignals) : ℤ :=
  (if s.isVPN then 30 else 0) + (if s.isProxy then 25 else 0) +
    (if s.isTor then 40 else 0) + (if s.isHosting then 20 else 0) +
    (if s.reputationFailed then 0 else reputationScore s)

/-- Returned fields of IPIntelligence.analyzeIP read by the create
handler. -/
structure IPAnalysis where
  vpnDetected : Bool
  proxyDetected : Bool
  torDetected : Bool
  abuseScore : ℤ
  riskLevel : RiskLevel
deriving DecidableEq

/-- IPIntelligence.analyzeIP on a cache miss: abuseScore clamped to 100,
risk level computed from the unclamped value.  The cache only ever stores
values returned by this computation. -/
def analyzeIP (s : IPSignals) : IPAnalysis :=
  { vpnDetected := s.isVPN, proxyDetected := s.isProxy, torDetected := s.isTor,
    abuseScore := min 100 (rawAbuseScore s),
    riskLevel := riskLevelOfScore (rawAbuseScore s : ℚ) }

/-! ## Create handler (src/routes/challenge.ts, POST /create) -/

/-- Overall risk combination of the create handler:
round(botScore times 0.6 plus abuseScore times 0.4). -/
def overallScoreOf (botA : BotAnalysis) (ipA : IPAnalysis) : ℤ :=
  jsRound ((botA.score : ℚ) * 0.6 + (ipA.abuseScore : ℚ) * 0.4)

/-- The requiresInteraction flag of the create response. -/
def createRequiresInteraction (botA : BotAnalysis) (ipA : IPAnalysis)
    (shouldChallenge : Bool) : Bool :=
  decide (overallScoreOf botA ipA > 30) || shouldChallenge

/-- Challenge row persisted by the create handler, with score
100 minus overall and expiry now plus the configured TTL. -/
def createChallengeRecord (botA : BotAnalysis) (ipA : IPAnalysis)
    (siteKey token fng : String) (now ttlSeconds : ℤ) : Challenge :=
  { token := token, siteKey := siteKey, fingerprint := fng, verified := false,
    score := 100 - overallScoreOf botA ipA,
    riskLevel := botA.riskLevel.upper,
    botScore := botA.score, vpnDetected := ipA.vpnDetected,
    proxyDetected := ipA.proxyDetected, torDetected := ipA.torDetected,
    abuseScore := ipA.abuseScore,
    expiresAt := now + ttlSeconds * 1000 }

/-! ## Bound lemmas for the additive scores -/

/-- Lower bound transfer for jsRound. -/
lemma le_jsRound (b : ℤ) (x : ℚ) (h : (b : ℚ) - 1/2 ≤ x) : b ≤ jsRound x := by
  unfold jsRound
  rw [Int.le_floor]
  linarith

/-- Upper bound transfer for jsRound. -/
lemma jsRound_le (x : ℚ) (b : ℤ) (h : x ≤ (b : ℚ)) : jsRound x ≤ b := by
  unfold jsRound
  have hlt : ⌊x + 1/2⌋ < b + 1 := by
    rw [Int.floor_lt]
    push_cast
    linarith
  omega

lemma confidence_nonneg (ua : String) (parsed : UAParsed) :
    0 ≤ (analyzeUserAgent ua parsed).confidence := by
  obtain ⟨bn, osn, bv⟩ := parsed
  simp only [analyzeUserAgent]
  cases bv <;> split_ifs <;> simp [le_max_iff] <;> (try split_ifs) <;> norm_num

lemma uaScore_nonneg (ua : String) (parsed : UAParsed) : 0 ≤ uaScore ua parsed := by
  unfold uaScore
  dsimp only
  split_ifs with h
  · have := confidence_nonneg ua parsed
    linarith
  · norm_num

lemma mouseMovementScore_nonneg (mm : Option (List MousePoint)) :
    0 ≤ mouseMovementScore mm := by
  cases mm with
  | none => simp [mouseMovementScore]
  | some ms =>
      simp only [mouseMovementScore]
      split_ifs <;> norm_num

lemma keystrokeScore_nonneg (ks : Option (List Keystroke)) :
    0 ≤ keystrokeScore ks := by
  cases ks with
  | none => simp [keystrokeScore]
  | some l =>
      simp only [keystrokeScore]
      split_ifs <;> norm_num

lemma requestTimingScore_nonneg (ts : Option (List ℚ)) :
    0 ≤ requestTimingScore ts := by
  cases ts with
  | none => simp [requestTimingScore]
  | some l =>
      simp only [requestTimingScore]
      split_ifs <;> norm_num

lemma challengeHistoryScore_nonneg (prev : Option ℕ) :
    0 ≤ challengeHistoryScore prev := by
  cases prev with
  | none => simp [challengeHistoryScore]
  | some n =>
      simp only [challengeHistoryScore]
      split_ifs <;> norm_num

lemma geoUnavailableScore_nonneg (geo : Bool) : 0 ≤ geoUnavailableScore geo := by
  unfold geoUnavailableScore
  split_ifs <;> norm_num

lemma rawBotScore_nonneg (ua : String) (parsed : UAParsed)
    (mm : Option (List MousePoint)) (ks : Option (List Keystroke))
    (ts : Option (List ℚ)) (prev : Option ℕ) (geo : Bool) :
    0 ≤ rawBotScore ua parsed mm ks ts prev geo := by
  unfold rawBotScore
  have h1 := uaScore_nonneg ua parsed
  have h2 := mouseMovementScore_nonneg mm
  have h3 := keystrokeScore_nonneg ks
  have h4 := requestTimingScore_nonneg ts
  have h5 := challengeHistoryScore_nonneg prev
  have h6 := geoUnavailableScore_nonneg geo
  linarith

lemma analyzeBotBehavior_score_nonneg (ua : String) (parsed : UAParsed)
    (mm : Option (List MousePoint)) (ks : Option (List Keystroke))
    (ts : Option (List ℚ)) (prev : Option ℕ) (geo : Bool) :
    0 ≤ (analyzeBotBehavior ua parsed mm ks ts prev geo).score := by
  simp only [analyzeBotBehavior]
  refine le_min (by norm_num) ?_
  exact le_jsRound 0 _ (by
    have := rawBotScore_nonneg ua parsed mm ks ts prev geo
    push_cast
    linarith)

lemma analyzeBotBehavior_score_le (ua : String) (parsed : UAParsed)
    (mm : Option (List MousePoint)) (ks : Option (List Keystroke))
    (ts : Option (List ℚ)) (prev : Option ℕ) (geo : Bool) :
    (analyzeBotBehavior ua parsed mm ks ts prev geo).score ≤ 100 := by
  simp only [analyzeBotBehavior]
  exact min_le_left _ _

lemma reputationScore_nonneg (s : IPSignals) : 0 ≤ reputationScore s := by
  unfold reputationScore
  split_ifs <;> norm_num

lemma rawAbuseScore_nonneg (s : IPSignals) : 0 ≤ rawAbuseScore s := by
  unfold rawAbuseScore
  have := reputationScore_nonneg s
  split_ifs <;> omega

lemma analyzeIP_abuseScore_nonneg (s : IPSignals) :
    0 ≤ (analyzeIP s).abuseScore := by
  simp only [analyzeIP]
  exact le_min (by norm_num) (rawAbuseScore_nonneg s)

lemma analyzeIP_abuseScore_le (s : IPSignals) :
    (analyzeIP s).abuseScore ≤ 100 := by
  simp only [analyzeIP]
  exact min_le_left _ _

lemma overallScoreOf_mem (botA : BotAnalysis) (ipA : IPAnalysis)
    (hb0 : 0 ≤ botA.score) (hb1 : botA.score ≤ 100)
    (ha0 : 0 ≤ ipA.abuseScore) (ha1 : ipA.abuseScore ≤ 100) :
    0 ≤ overallScoreOf botA ipA ∧ overallScoreOf botA ipA ≤ 100 := by
  unfold overallScoreOf
  constructor
  · refine le_jsRound 0 _ ?_
    have hb : (0 : ℚ) ≤ (botA.score : ℚ) := by exact_mod_cast hb0
    have ha : (0 : ℚ) ≤ (ipA.abuseScore : ℚ) := by exact_mod_cast ha0
    norm_num
    linarith
  · refine jsRound_le _ 100 ?_
    have hb : (botA.score : ℚ) ≤ 100 := by exact_mod_cast hb1
    have ha : (ipA.abuseScore : ℚ) ≤ 100 := by exact_mod_cast ha1
    norm_num
    linarith

/-- C4: for all inputs the behavioral analyzer score is in [0,100], the IP
aggregator abuseScore is in [0,100], and the challenge score persisted by
create, namely 100 minus round(botScore times 0.6 plus abuseScore times
0.4), is in [0,100]. -/
theorem score_bounds :
    (∀ (ua : String) (parsed : UAParsed) (mm : Option (List MousePoint))
        (ks : Option (List Keystroke)) (ts : Option (List ℚ))
        (prev : Option ℕ) (geo : Bool),
        0 ≤ (analyzeBotBehavior ua parsed mm ks ts prev geo).score ∧
        (analyzeBotBehavior ua parsed mm ks ts prev geo).score ≤ 100) ∧
    (∀ s : IPSignals,
        0 ≤ (analyzeIP s).abuseScore ∧ (analyzeIP s).abuseScore ≤ 100) ∧
    (∀ (ua : String) (parsed : UAParsed) (mm : Option (List MousePoint))
        (ks : Option (List Keystroke)) (ts : Option (List ℚ))
        (prev : Option ℕ) (geo : Bool) (s : IPSignals)
        (siteKey token fng : String) (now ttl : ℤ),
        0 ≤ (createChallengeRecord (analyzeBotBehavior ua parsed mm ks ts prev geo)
              (analyzeIP s) siteKey token fng now ttl).score ∧
        (createChallengeRecord (analyzeBotBehavior ua parsed mm ks ts prev geo)
              (analyzeIP s) siteKey token fng now ttl).score ≤ 100) := by
  refine ⟨?_, ?_, ?_⟩
  · intro ua parsed mm ks ts prev geo
    exact ⟨analyzeBotBehavior_score_nonneg ua parsed mm ks ts prev geo,
           analyzeBotBehavior_score_le ua parsed mm ks ts prev geo⟩
  · intro s
    exact ⟨analyzeIP_abuseScore_nonneg s, analyzeIP_abuseScore_le s⟩
  · intro ua parsed mm ks ts prev geo s siteKey token fng now ttl
    have h := overallScoreOf_mem (analyzeBotBehavior ua parsed mm ks ts prev geo)
      (analyzeIP s)
      (analyzeBotBehavior_score_nonneg ua parsed mm ks ts prev geo)
      (analyzeBotBehavior_score_le ua parsed mm ks ts prev geo)
      (analyzeIP_abuseScore_nonneg s) (analyzeIP_abuseScore_le s)
    simp only [createChallengeRecord]
    omega

/-- Evaluation of the user-agent stage on the literal curl/8.0: the curl
pattern matches, so regardless of how the UA parser fares the result is a
bot classification at confidence 0.9. -/
lemma analyzeUserAgent_curl (parsed : UAParsed) :
    analyzeUserAgent "curl/8.0" parsed = ⟨true, 0.9⟩ := by
  obtain ⟨bn, osn, bv⟩ := parsed
  have hpat : botPatternStrings.any (fun p => containsCI "curl/8.0" p) = true := by
    decide
  simp only [analyzeUserAgent, hpat]
  cases bv <;> split_ifs <;>
    simp [UAResult.mk.injEq, max_eq_left, le_max_iff] <;> norm_num

lemma uaScore_curl (parsed : UAParsed) : uaScore "curl/8.0" parsed = 22.5 := by
  unfold uaScore
  rw [analyzeUserAgent_curl]
  norm_num

/-- Raw behavioral score of the scenario request: empty mouse trace adds 20,
empty keystroke list adds 10, the curl user agent adds 22.5, and the timing
and geolocation stages add a nonnegative amount. -/
lemma rawBotScore_curl_ge (parsed : UAParsed) (ts : Option (List ℚ))
    (geo : Bool) :
    (52.5 : ℚ) ≤ rawBotScore "curl/8.0" parsed (some []) (some []) ts none geo := by
  unfold rawBotScore
  rw [uaScore_curl]
  have h1 : mouseMovementScore (some []) = 20 := by norm_num [mouseMovementScore]
  have h2 : keystrokeScore (some []) = 10 := by norm_num [keystrokeScore]
  have h3 : challengeHistoryScore none = 0 := by norm_num [challengeHistoryScore]
  have h4 := requestTimingScore_nonneg ts
  have h5 := geoUnavailableScore_nonneg geo
  rw [h1, h2, h3]
  linarith

/-- C5: a create request with empty mouse-movement and keystroke lists and
user agent curl/8.0 yields, for every UA-parser outcome, every timing list,
every geolocation outcome and every IP-signal environment, a behavioral
score of at least 45, a risk level of at least medium, and a create response
with requiresInteraction true. -/
theorem curl_scenario (parsed : UAParsed) (ts : Option (List ℚ)) (geo : Bool)
    (s : IPSignals) (shc : Bool) :
    45 ≤ (analyzeBotBehavior "curl/8.0" parsed (some []) (some []) ts none geo).score ∧
    RiskLevel.medium.toNat ≤
      (analyzeBotBehavior "curl/8.0" parsed (some []) (some []) ts none geo).riskLevel.toNat ∧
    createRequiresInteraction
      (analyzeBotBehavior "curl/8.0" parsed (some []) (some []) ts none geo)
      (analyzeIP s) shc = true := by
  have hraw := rawBotScore_curl_ge parsed ts geo
  have hscore : (53 : ℤ) ≤
      (analyzeBotBehavior "curl/8.0" parsed (some []) (some []) ts none geo).score := by
    simp only [analyzeBotBehavior]
    refine le_min (by norm_num) (le_jsRound 53 _ ?_)
    push_cast
    linarith
  refine ⟨by omega, ?_, ?_⟩
  · simp only [analyzeBotBehavior, riskLevelOfScore, RiskLevel.toNat]
    split_ifs with h1 h2 h3 <;> norm_num
    · linarith
  · have habuse := analyzeIP_abuseScore_nonneg s
    have hbot := hscore
    have hover : (30 : ℤ) < overallScoreOf
        (analyzeBotBehavior "curl/8.0" parsed (some []) (some []) ts none geo)
        (analyzeIP s) := by
      unfold overallScoreOf
      have h32 : (32 : ℤ) ≤ jsRound
          (((analyzeBotBehavior "curl/8.0" parsed (some []) (some []) ts none geo).score : ℚ) * 0.6 +
           ((analyzeIP s).abuseScore : ℚ) * 0.4) := by
        refine le_jsRound 32 _ ?_
        have hb : (53 : ℚ) ≤
            ((analyzeBotBehavior "curl/8.0" parsed (some []) (some []) ts none geo).score : ℚ) := by
          exact_mod_cast hbot
        have ha : (0 : ℚ) ≤ ((analyzeIP s).abuseScore : ℚ) := by
          exact_mod_cast habuse
        norm_num
        linarith
      omega
    simp only [createRequiresInteraction, Bool.or_eq_true, decide_eq_true_eq]
    exact Or.inl hover

/-- C6 counterexample: a ten-point trace whose eight consecutive triples
contain seven near-collinear ones.  Seven is more than 70 percent of the
eight triples, so the claim says the 10-point linear-movement bonus fires,
but the source compares against 70 percent of the point count (seven), and
seven is not greater than seven, so no bonus is added. -/
def linearTraceW : List MousePoint :=
  [⟨0, 0, 0⟩, ⟨1, 0, 0⟩, ⟨2, 0, 0⟩, ⟨3, 0, 0⟩, ⟨4, 0, 0⟩,
   ⟨5, 0, 0⟩, ⟨6, 0, 0⟩, ⟨7, 0, 0⟩, ⟨8, 0, 0⟩, ⟨8, 5, 0⟩]

theorem mouse_linearity_counterexample :
    linearTraceW.length = 10 ∧
    straightLineCount linearTraceW = 7 ∧
    0.7 * ((linearTraceW.length : ℚ) - 2) < (straightLineCount linearTraceW : ℚ) ∧
    mouseMovementScore (some linearTraceW) ≠ 10 := by
  norm_num [linearTraceW, mouseMovementScore, straightLineCount,
    straightLineCountAux, collinearTriple]

/-- C6 amended: for a trace of at least five points, the analyzer adds
exactly 10 points for linear movement precisely when the number of
near-collinear consecutive triples exceeds 0.7 times the number of points
(not 0.7 times the number of triples). -/
theorem mouse_linearity (ms : List MousePoint) (h : 5 ≤ ms.length) :
    mouseMovementScore (some ms) = 10 ↔
      (ms.length : ℚ) * 0.7 < (straightLineCount ms : ℚ) := by
  have h0 : ¬ ms.length = 0 := by omega
  have h5 : ¬ ms.length < 5 := by omega
  simp only [mouseMovementScore, h0, h5, if_false]
  split_ifs with hc
  · simp only [gt_iff_lt] at hc
    simp [hc]
  · simp only [gt_iff_lt] at hc
    constructor
    · intro h10
      norm_num at h10
    · intro hlt
      exact absurd hlt hc

/-- Concrete five-point perfectly straight trace for the C6 witness. -/
def straightFiveW : List MousePoint :=
  [⟨0, 0, 0⟩, ⟨1, 0, 0⟩, ⟨2, 0, 0⟩, ⟨3, 0, 0⟩, ⟨4, 0, 0⟩]

/-- Witness for C6 amended at a concrete five-point trace: all three triples
are collinear, yet three does not exceed 0.7 times five, so no bonus. -/
theorem mouse_linearity_witness :
    (mouseMovementScore (some straightFiveW) = 10 ↔
      ((straightFiveW.length : ℚ) * 0.7 < (straightLineCount straightFiveW : ℚ))) ∧
    ¬ ((straightFiveW.length : ℚ) * 0.7 < (straightLineCount straightFiveW : ℚ)) :=
  ⟨mouse_linearity straightFiveW (by norm_num [straightFiveW]),
   by norm_num [straightFiveW, straightLineCount, straightLineCountAux, collinearTriple]⟩

/-! ## Fingerprint builder (BotDetector.generateFingerprint) -/

/-- Input record of generateFingerprint.  Every field of the source
interface is optional there (the function takes a Partial).  The ipAddress
and fingerprint fields of the interface are never serialized and are
omitted. -/
structure FingerprintData where
  userAgent : Option String
  acceptLanguage : Option String
  acceptEncoding : Option String
  screenResolution : Option String
  timezone : Option ℤ
  canvas : Option String
  webgl : Option String
  fonts : Option (List String)
deriving DecidableEq

/-- Array.prototype.join with a separator, as used for both the component
join on the bar and the fonts join on the comma. -/
def joinSep (sep : String) : List String → String
  | [] => ""
  | [c] => c
  | c :: c2 :: rest => c ++ sep ++ joinSep sep (c2 :: rest)

/-- The eight serialized component strings, in source order, each defaulting
to the empty string when the field is missing; the fonts list is collapsed
with a comma join before serialization. -/
def componentsOf (d : FingerprintData) : List String :=
  [d.userAgent.getD "", d.acceptLanguage.getD "", d.acceptEncoding.getD "",
   d.screenResolution.getD "",
   (match d.timezone with | some t => toString t | none => ""),
   d.canvas.getD "", d.webgl.getD "",
   (match d.fonts with | some fs => joinSep "," fs | none => "")]

/-- Pre-hash serialization of generateFingerprint: the components joined
with the bar separator. -/
def serializedComponents (d : FingerprintData) : String :=
  joinSep "|" (componentsOf d)

/-- BotDetector.generateFingerprint, parametric in the hash so that equal
serializations give equal digests for every hash function; the source
instantiates the hash with hex-encoded sha256. -/
def generateFingerprint (hash : String → String) (d : FingerprintData) : String :=
  hash (serializedComponents d)

lemma string_data_injective {s t : String} (h : s.data = t.data) : s = t := by
  cases s
  cases t
  exact congrArg String.mk h

lemma string_append_cancel_left {a b c : String} (h : a ++ b = a ++ c) : b = c := by
  apply string_data_injective
  have hd := congrArg String.data h
  rw [String.data_append, String.data_append] at hd
  exact List.append_cancel_left hd

lemma string_append_cancel_right {a b c : String} (h : a ++ c = b ++ c) : a = b := by
  apply string_data_injective
  have hd := congrArg String.data h
  rw [String.data_append, String.data_append] at hd
  exact List.append_cancel_right hd

lemma joinSep_cons_of_ne_nil (sep a : String) (l : List String) (h : l ≠ []) :
    joinSep sep (a :: l) = a ++ sep ++ joinSep sep l := by
  cases l with
  | nil => exact absurd rfl h
  | cons b rest => rfl

/-- Replacing exactly one component by a different string changes the
joined serialization, whatever the separator is. -/
lemma joinSep_single_diff (sep : String) (pre post : List String)
    (m m' : String) (h : m ≠ m') :
    joinSep sep (pre ++ m :: post) ≠ joinSep sep (pre ++ m' :: post) := by
  induction pre with
  | nil =>
      cases post with
      | nil =>
          simpa [joinSep] using h
      | cons c rest =>
          intro heq
          rw [List.nil_append, List.nil_append,
            joinSep_cons_of_ne_nil sep m (c :: rest) (by simp),
            joinSep_cons_of_ne_nil sep m' (c :: rest) (by simp)] at heq
          exact h (string_append_cancel_right (string_append_cancel_right heq))
  | cons a pre ih =>
      intro heq
      rw [List.cons_append, List.cons_append,
        joinSep_cons_of_ne_nil sep a (pre ++ m :: post) (by simp),
        joinSep_cons_of_ne_nil sep a (pre ++ m' :: post) (by simp)] at heq
      exact ih (string_append_cancel_left heq)

/-- C7 amended: generateFingerprint is a deterministic function of the
serialized components, and two inputs whose eight derived component strings
differ in exactly one position have different pre-hash serializations (the
claim as stated fails at the record level, see the counterexample: the
separator can be simulated by the comma-joined fonts list). -/
theorem fingerprint_one_component (hash : String → String)
    (x y : FingerprintData) (pre post : List String) (m m' : String)
    (hx : componentsOf x = pre ++ m :: post)
    (hy : componentsOf y = pre ++ m' :: post) (hne : m ≠ m') :
    serializedComponents x ≠ serializedComponents y ∧
    (∀ z w : FingerprintData, componentsOf z = componentsOf w →
      generateFingerprint hash z = generateFingerprint hash w) := by
  constructor
  · unfold serializedComponents
    rw [hx, hy]
    exact joinSep_single_diff "|" pre post m m' hne
  · intro z w hzw
    unfold generateFingerprint serializedComponents
    rw [hzw]

/-- Record with only the user agent present. -/
def fpDataA : FingerprintData :=
  { userAgent := some "Mozilla", acceptLanguage := none, acceptEncoding := none,
    screenResolution := none, timezone := none, canvas := none, webgl := none,
    fonts := none }

/-- Same record with only the user agent changed. -/
def fpDataB : FingerprintData := { fpDataA with userAgent := some "curl" }

/-- Witness for C7 amended: changing exactly the first component string from
Mozilla to curl changes the serialization, and the digest map is
deterministic for the identity hash. -/
theorem fingerprint_one_component_witness :
    serializedComponents fpDataA ≠ serializedComponents fpDataB ∧
    (∀ z w : FingerprintData, componentsOf z = componentsOf w →
      generateFingerprint (fun s => s) z = generateFingerprint (fun s => s) w) :=
  fingerprint_one_component (fun s => s) fpDataA fpDataB []
    ["", "", "", "", "", "", ""] "Mozilla" "curl" rfl rfl (by decide)

/-- Record whose fonts list is the single entry a,b. -/
def fpFontsA : FingerprintData :=
  { userAgent := none, acceptLanguage := none, acceptEncoding := none,
    screenResolution := none, timezone := none, canvas := none, webgl := none,
    fonts := some ["a,b"] }

/-- Same record except the fonts list holds the two entries a and b. -/
def fpFontsB : FingerprintData := { fpFontsA with fonts := some ["a", "b"] }

/-- C7 counterexample: the two records differ in exactly one component (the
fonts list) yet serialize to the same pre-hash string, because the fonts are
comma-joined before hashing; hence the digests collide for every hash
function, refuting the claim that a one-component difference always changes
the output. -/
theorem fingerprint_counterexample :
    fpFontsA ≠ fpFontsB ∧
    fpFontsA.fonts ≠ fpFontsB.fonts ∧
    fpFontsA.userAgent = fpFontsB.userAgent ∧
    fpFontsA.acceptLanguage = fpFontsB.acceptLanguage ∧
    fpFontsA.acceptEncoding = fpFontsB.acceptEncoding ∧
    fpFontsA.screenResolution = fpFontsB.screenResolution ∧
    fpFontsA.timezone = fpFontsB.timezone ∧
    fpFontsA.canvas = fpFontsB.canvas ∧
    fpFontsA.webgl = fpFontsB.webgl ∧
    serializedComponents fpFontsA = serializedComponents fpFontsB ∧
    generateFingerprint (fun s => s) fpFontsA =
      generateFingerprint (fun s => s) fpFontsB := by
  refine ⟨by decide, by decide, rfl, rfl, rfl, rfl, rfl, rfl, rfl, ?_, ?_⟩ <;> rfl

/-! ## Abuse detector (class AbuseDetector) -/

/-- Row of the prisma blacklist table as read by isBlacklisted. -/
structure BlacklistEntry where
  type : String
  value : String
  permanent : Bool
  expiresAt : Option ℤ
deriving DecidableEq

/-- The prisma where-clause of AbuseDetector.isBlacklisted: the entry names
the IP or the fingerprint, and is permanent or not yet expired (a null
expiresAt never satisfies the greater-than filter). -/
def blacklistMatches (now : ℤ) (ip fp : String) (e : BlacklistEntry) : Bool :=
  ((e.type == "IP" && e.value == ip) ||
   (e.type == "FINGERPRINT" && e.value == fp)) &&
  (e.permanent ||
   (match e.expiresAt with | some t => decide (now < t) | none => false))

/-- Severity taxonomy of the abuse detector. -/
inductive Severity
  | low
  | medium
  | high
  | critical
deriving DecidableEq

/-- Return shape of AbuseDetector.detectAbusePatterns. -/
structure AbuseDetectionResult where
  blocked : Bool
  reason : Option String
  severity : Severity
  shouldChallenge : Bool
deriving DecidableEq

/-- Environment of one detectAbusePatterns call: the cache and store state
the blacklist lookup sees, and the values the rate counters and log queries
return during the call.  Counter fields hold the post-increment values the
redis incr calls return. -/
structure AbuseEnv where
  ip : String
  fingerprint : String
  cacheBlIp : Bool
  cacheBlFp : Bool
  store : List BlacklistEntry
  now : ℤ
  ipCurrent : ℕ
  violations : ℕ
  fpCurrent : ℕ
  attackCurrent : ℕ
  recentAbuse : ℕ
deriving DecidableEq

/-- AbuseDetector.isBlacklisted: the cache keys first, then, on a cache
miss, the authoritative store query. -/
def isBlacklistedModel (env : AbuseEnv) : Bool :=
  env.cacheBlIp || env.cacheBlFp ||
    env.store.any (blacklistMatches env.now env.ip env.fingerprint)

/-- AbuseDetector.detectAbusePatterns: the ordered short-circuiting checks.
The logging and temp-block side effects do not alter the returned result
and are dropped; the violation and abuse-log counts are the values the
queries return inside the call. -/
def detectAbusePatterns (env : AbuseEnv) : AbuseDetectionResult :=
  if isBlacklistedModel env then
    ⟨true, some "IP or fingerprint is blacklisted", .critical, false⟩
  else if env.ipCurrent > 30 then
    if env.violations > 5 then
      ⟨true, some "Multiple rate limit violations", .high, false⟩
    else
      ⟨false, some "Rate limit exceeded", .medium, true⟩
  else if env.fpCurrent > 20 then
    ⟨false, some "Too many requests from same fingerprint", .medium, true⟩
  else if env.attackCurrent > 100 then
    ⟨false, some "Distributed attack detected", .high, true⟩
  else if env.recentAbuse > 10 then
    ⟨true, some "Repeated abuse detected", .critical, false⟩
  else ⟨false, none, .low, false⟩

/-- C8: the blacklist check comes first.  Whenever the IP or fingerprint is
blacklisted, whether via the cache or, on a cache miss, via a store entry
that is permanent or not yet expired, the result is the constant
blocked-CRITICAL outcome, independent of every rate counter and log value
(so no later check is evaluated); and when no check triggers, the result is
not blocked, severity LOW, no challenge. -/
theorem abuse_blacklist_first :
    (∀ env : AbuseEnv, isBlacklistedModel env = true →
      detectAbusePatterns env =
        ⟨true, some "IP or fingerprint is blacklisted", .critical, false⟩) ∧
    (∀ env : AbuseEnv, env.cacheBlIp = false → env.cacheBlFp = false →
      env.store.any (blacklistMatches env.now env.ip env.fingerprint) = true →
      detectAbusePatterns env =
        ⟨true, some "IP or fingerprint is blacklisted", .critical, false⟩) ∧
    (∀ env : AbuseEnv, isBlacklistedModel env = false →
      env.ipCurrent ≤ 30 → env.fpCurrent ≤ 20 → env.attackCurrent ≤ 100 →
      env.recentAbuse ≤ 10 →
      detectAbusePatterns env = ⟨false, none, .low, false⟩) := by
  refine ⟨?_, ?_, ?_⟩
  · intro env h
    simp [detectAbusePatterns, h]
  · intro env h1 h2 h3
    have hb : isBlacklistedModel env = true := by
      simp [isBlacklistedModel, h1, h2, h3]
    simp [detectAbusePatterns, hb]
  · intro env h h1 h2 h3 h4
    simp [detectAbusePatterns, h,
      show ¬ env.ipCurrent > 30 by omega,
      show ¬ env.fpCurrent > 20 by omega,
      show ¬ env.attackCurrent > 100 by omega,
      show ¬ env.recentAbuse > 10 by omega]

/-- Environment with a permanent store-only blacklist entry and every later
check primed to trigger. -/
def abuseEnvBlockedW : AbuseEnv :=
  { ip := "203.0.113.9", fingerprint := "fp-9", cacheBlIp := false,
    cacheBlFp := false, store := [⟨"IP", "203.0.113.9", true, none⟩],
    now := 0, ipCurrent := 1000, violations := 99, fpCurrent := 1000,
    attackCurrent := 1000, recentAbuse := 99 }

/-- Environment in which no check triggers. -/
def abuseEnvCleanW : AbuseEnv :=
  { ip := "198.51.100.1", fingerprint := "fp-1", cacheBlIp := false,
    cacheBlFp := false, store := [], now := 0, ipCurrent := 3,
    violations := 0, fpCurrent := 2, attackCurrent := 4, recentAbuse := 0 }

/-- Witness for C8: the cache misses but the permanent store entry blocks
with severity CRITICAL despite every later check being primed to trigger,
and the clean environment falls through to the LOW default. -/
theorem abuse_blacklist_first_witness :
    detectAbusePatterns abuseEnvBlockedW =
      ⟨true, some "IP or fingerprint is blacklisted", .critical, false⟩ ∧
    detectAbusePatterns abuseEnvCleanW = ⟨false, none, .low, false⟩ :=
  ⟨abuse_blacklist_first.2.1 abuseEnvBlockedW rfl rfl (by decide),
   abuse_blacklist_first.2.2 abuseEnvCleanW (by decide) (by decide) (by decide)
     (by decide) (by decide)⟩

/-! ## Rate-limit counter (redisClient.incr of config/database.ts and
AbuseDetector.checkRateLimit) -/

/-- The incr operation of the in-memory redis replacement: read the current
value, defaulting an absent key to zero, add one and store.  The function
body contains no suspension point between the read and the write, so under
the JavaScript event loop each call executes atomically; a schedule of
concurrent requests is therefore a sequence of these atomic steps. -/
def jsIncr (cache : String → Option ℕ) (key : String) :
    ℕ × (String → Option ℕ) :=
  let v := (cache key).getD 0 + 1
  (v, fun k => if k = key then some v else cache k)

/-- Return shape of AbuseDetector.checkRateLimit. -/
structure RateLimitStatus where
  limited : Bool
  current : ℕ
  remaining : ℤ
deriving DecidableEq

/-- The result checkRateLimit builds from the value incr returned, with the
default window maximum passed explicitly. -/
def rateLimitStatusOf (current maxRequests : ℕ) : RateLimitStatus :=
  ⟨decide (current > maxRequests), current,
   max 0 ((maxRequests : ℤ) - (current : ℤ))⟩

/-- Values returned by n consecutive atomic incr steps on one key. -/
def runRateLimit : ℕ → (String → Option ℕ) → String → List ℕ
  | 0, _, _ => []
  | n + 1, cache, key =>
      let r := jsIncr cache key
      r.1 :: runRateLimit n r.2 key

lemma runRateLimit_closed (n : ℕ) (key : String) :
    ∀ cache : String → Option ℕ,
      runRateLimit n cache key =
        (List.range n).map (fun i => (cache key).getD 0 + i + 1) := by
  induction n with
  | zero => intro cache; rfl
  | succ n ih =>
      intro cache
      have hstep : runRateLimit (n + 1) cache key =
          ((cache key).getD 0 + 1) ::
            runRateLimit n
              (fun k => if k = key then some ((cache key).getD 0 + 1)
               else cache k) key := rfl
      rw [hstep, ih, List.range_succ_eq_map, List.map_cons, List.map_map]
      refine congrArg₂ List.cons (by omega) (List.map_congr_left ?_)
      intro i _
      simp [Function.comp]
      omega

lemma countP_range_lt (m k : ℕ) :
    (List.range (m + k)).countP (fun i => decide (i < m)) = m := by
  induction k with
  | zero =>
      rw [List.countP_eq_length.mpr]
      · exact List.length_range m
      · intro a ha
        simp only [List.mem_range] at ha
        simpa using ha
  | succ k ih =>
      have : m + (k + 1) = (m + k) + 1 := by omega
      rw [this, List.range_succ, List.countP_append, ih]
      simp [show ¬ m + k < m by omega]

/-- C9: with the incr read-modify-write executing atomically, n requests for
one key within one window receive the distinct counter values 1 through n,
so for n above the maximum of 30 exactly 30 of the produced rate-limit
results report limited false and the remaining n minus 30 report limited
true: no update is lost. -/
theorem rate_limit_no_lost_updates (n : ℕ) (key : String) (h : 30 < n) :
    (((runRateLimit n (fun _ => none) key).map
        (fun c => rateLimitStatusOf c 30)).countP (fun r => !r.limited) = 30) ∧
    (((runRateLimit n (fun _ => none) key).map
        (fun c => rateLimitStatusOf c 30)).countP (fun r => r.limited) =
      n - 30) := by
  have hrun : runRateLimit n (fun _ => none) key =
      (List.range n).map (fun i => i + 1) := by
    rw [runRateLimit_closed]
    simp
  have hcount1 : ((runRateLimit n (fun _ => none) key).map
      (fun c => rateLimitStatusOf c 30)).countP (fun r => !r.limited) = 30 := by
    rw [hrun, List.map_map, List.countP_map]
    have hcongr : ∀ a ∈ List.range n,
        ((fun r => !r.limited) ∘ (fun c => rateLimitStatusOf c 30) ∘
          (fun i => i + 1)) a = true ↔ (fun i => decide (i < 30)) a = true := by
      intro a _
      simp [rateLimitStatusOf, Function.comp]
      omega
    rw [List.countP_congr hcongr]
    have hsplit : n = 30 + (n - 30) := by omega
    rw [hsplit, countP_range_lt]
  refine ⟨hcount1, ?_⟩
  have hlen := List.length_eq_countP_add_countP (fun r => r.limited)
    ((runRateLimit n (fun _ => none) key).map (fun c => rateLimitStatusOf c 30))
  have hlen2 : ((runRateLimit n (fun _ => none) key).map
      (fun c => rateLimitStatusOf c 30)).length = n := by
    rw [hrun]
    simp
  have hnot : ((runRateLimit n (fun _ => none) key).map
      (fun c => rateLimitStatusOf c 30)).countP
        (fun r => decide (¬ r.limited = true)) = 30 := by
    have hc : ((runRateLimit n (fun _ => none) key).map
        (fun c => rateLimitStatusOf c 30)).countP
          (fun r => decide (¬ r.limited = true)) =
        ((runRateLimit n (fun _ => none) key).map
          (fun c => rateLimitStatusOf c 30)).countP (fun r => !r.limited) := by
      refine List.countP_congr ?_
      intro r _
      simp
    rw [hc]
    exact hcount1
  omega

/-- Witness for C9 at 31 concurrent requests: 30 allowed, 1 limited. -/
theorem rate_limit_no_lost_updates_witness :
    (((runRateLimit 31 (fun _ => none) "ratelimit:ip:203.0.113.7:0").map
        (fun c => rateLimitStatusOf c 30)).countP (fun r => !r.limited) = 30) ∧
    (((runRateLimit 31 (fun _ => none) "ratelimit:ip:203.0.113.7:0").map
        (fun c => rateLimitStatusOf c 30)).countP (fun r => r.limited) =
      31 - 30) :=
  rate_limit_no_lost_updates 31 "ratelimit:ip:203.0.113.7:0" (by omega)

/-! ## Standalone variant risk scorer (standalone-package/server.js,
calculateRiskScore) -/

/-- Request data consumed by the standalone calculateRiskScore; the
keystrokes field is passed by the create endpoint but never read by the
scorer. -/
structure StandaloneInput where
  fingerprint : Option String
  mouseMovements : Option (List MousePoint)
  keystrokes : Option (List Keystroke)
  requestTimings : Option (List ℚ)
deriving DecidableEq

/-- Fingerprint-quality block: a missing, empty or short fingerprint adds
0.3 (the JavaScript falsiness of the empty string is subsumed by its length
being below 10). -/
def riskFingerprintPart (fp : Option String) : ℚ :=
  if (match fp with
      | none => true
      | some f => decide (f.length < 10)) then 0.3 else 0

/-- Mouse-movement block: a missing trace or one with fewer than 5 points
adds 0.2. -/
def riskMousePart (mm : Option (List MousePoint)) : ℚ :=
  if (match mm with
      | none => true
      | some ms => decide (ms.length < 5)) then 0.2 else 0

/-- Timing block: with at least two timestamps, a mean interval below 50 or
every interval within 10 of the mean adds 0.25. -/
def riskTimingPart (ts : Option (List ℚ)) : ℚ :=
  match ts with
  | none => 0
  | some l =>
    if l.length > 1 then
      (if meanQ (successiveDiffs l) < 50 ∨
          (successiveDiffs l).all
            (fun i => decide (|i - meanQ (successiveDiffs l)| < 10)) then 0.25
       else 0)
    else 0

/-- The standalone calculateRiskScore, with the fresh Math.random() times
0.1 term passed explicitly as rand, and the final Math.min clamp. -/
def calculateRiskScore (d : StandaloneInput) (rand : ℚ) : ℚ :=
  min (riskFingerprintPart d.fingerprint + riskMousePart d.mouseMovements +
       riskTimingPart d.requestTimings + rand) 1

lemma riskFingerprintPart_nonneg (fp : Option String) :
    0 ≤ riskFingerprintPart fp := by
  unfold riskFingerprintPart
  split_ifs <;> norm_num

lemma riskMousePart_nonneg (mm : Option (List MousePoint)) :
    0 ≤ riskMousePart mm := by
  unfold riskMousePart
  split_ifs <;> norm_num

lemma riskTimingPart_nonneg (ts : Option (List ℚ)) :
    0 ≤ riskTimingPart ts := by
  cases ts with
  | none => simp [riskTimingPart]
  | some l =>
      simp only [riskTimingPart]
      split_ifs <;> norm_num

/-- Low-risk concrete input: a long fingerprint, five mouse points, no
timing data. -/
def riskInputW : StandaloneInput :=
  { fingerprint := some "abcdefghij",
    mouseMovements := some
      [⟨0, 0, 0⟩, ⟨1, 1, 0⟩, ⟨2, 3, 0⟩, ⟨3, 6, 0⟩, ⟨4, 10, 0⟩],
    keystrokes := none, requestTimings := none }

/-- C10: the standalone calculateRiskScore always returns a value in [0,1]
for every random term in [0, 0.1), and it is not a deterministic function of
the request data: on the concrete low-risk input, the random terms 0 and
0.05, both legitimate values of Math.random() times 0.1, give different
scores. -/
theorem standalone_risk_score :
    (∀ (d : StandaloneInput) (r : ℚ), 0 ≤ r → r < 0.1 →
      0 ≤ calculateRiskScore d r ∧ calculateRiskScore d r ≤ 1) ∧
    ((0 : ℚ) ≤ 0 ∧ (0 : ℚ) < 0.1 ∧ (0 : ℚ) ≤ 0.05 ∧ (0.05 : ℚ) < 0.1 ∧
      calculateRiskScore riskInputW 0 ≠ calculateRiskScore riskInputW 0.05) := by
  constructor
  · intro d r h0 h1
    unfold calculateRiskScore
    constructor
    · refine le_min ?_ (by norm_num)
      have p1 := riskFingerprintPart_nonneg d.fingerprint
      have p2 := riskMousePart_nonneg d.mouseMovements
      have p3 := riskTimingPart_nonneg d.requestTimings
      linarith
    · exact min_le_right _ _
  · refine ⟨le_refl 0, by norm_num, by norm_num, by norm_num, ?_⟩
    have hfp : ¬ ("abcdefghij".length < 10) := by decide
    have hz : calculateRiskScore riskInputW 0 = 0 := by
      norm_num [calculateRiskScore, riskInputW, riskFingerprintPart,
        riskMousePart, riskTimingPart, hfp]
    have hn : calculateRiskScore riskInputW 0.05 = 0.05 := by
      norm_num [calculateRiskScore, riskInputW, riskFingerprintPart,
        riskMousePart, riskTimingPart, hfp]
    rw [hz, hn]
    norm_num

/-- Witness for C10: the bounds instantiated at the concrete input with the
random term 0.05. -/
theorem standalone_risk_score_witness :
    0 ≤ calculateRiskScore riskInputW 0.05 ∧
    calculateRiskScore riskInputW 0.05 ≤ 1 :=
  standalone_risk_score.1 riskInputW 0.05 (by norm_num) (by norm_num)
